import Mathlib

/-!
Verification of the display-controller rendering core of the
SSD1306 status monitor.

The program keeps a bi-level in-memory canvas (a PIL image of mode `1`)
owned by `DisplayController`, draws widgets into it (rectangles, text,
uptime, CPU-load bars, service-status badges) and pushes the buffer to the
physical display via `render_canvas`.  The shallow embedding below models

* the canvas as a fixed-size grid of booleans (`Canvas`),
* PIL's `ImageDraw.rectangle`/`ImageDraw.text` pixel semantics
  (inclusive corners, corner normalization, clipping, and the fact that a
  boolean `fill`/`outline` argument is an ink value, `False` being
  background ink),
* the controller methods of `display_controller.py` as functions on a
  controller state, each returning the list of calls made on the display
  device handle,
* the uptime string construction `str(timedelta(seconds=u))[:-7]`,
* the CPU-bar loop, including the type error raised when
  `psutil.cpu_percent(percpu=False)` returns a single float,
* the service-status badge loop and the SIGINT handler.
-/

/-- A bi-level pixel buffer of fixed size.  `pix px py` is the pixel value
at column `px`, row `py`; only coordinates inside `[0,width) × [0,height)`
are meaningful, and every drawing operation clips to those bounds. -/
structure Canvas where
  width : Nat
  height : Nat
  pix : Int → Int → Bool

/-- `DisplayController._get_clean_canvas`: `Image.new('1', (w, h))`, an
all-background buffer of the full display size. -/
def get_clean_canvas (w h : Nat) : Canvas :=
  { width := w, height := h, pix := fun _ _ => false }

/-- Bounds test used by PIL when clipping draw operations to the image. -/
def inBoundsB (c : Canvas) (px py : Int) : Bool :=
  decide (0 ≤ px) && decide (px < (c.width : Int)) &&
    decide (0 ≤ py) && decide (py < (c.height : Int))

/-- Membership in the closed rectangle with the two given (unordered)
corners.  PIL's `ImageDraw.rectangle((x0, y0, x1, y1))` normalizes the
corners and covers both of them, i.e. it draws the closed region
`[min x0 x1, max x0 x1] × [min y0 y1, max y0 y1]`. -/
def inClosedRectB (x0 y0 x1 y1 px py : Int) : Bool :=
  decide (min x0 x1 ≤ px) && decide (px ≤ max x0 x1) &&
    decide (min y0 y1 ≤ py) && decide (py ≤ max y0 y1)

/-- The one-pixel border of the closed rectangle with the two given
corners: the pixels PIL's outline pass covers. -/
def onRectBorderB (x0 y0 x1 y1 px py : Int) : Bool :=
  inClosedRectB x0 y0 x1 y1 px py &&
    (decide (px = min x0 x1) || decide (px = max x0 x1) ||
      decide (py = min y0 y1) || decide (py = max y0 y1))

/-- PIL `ImageDraw.rectangle((x0, y0, x1, y1), outline, fill)` on a mode
`1` image, with boolean ink values as passed by
`DisplayController.draw_rectangle`: the interior (closed region) is filled
with the `fill` ink, then the border is drawn with the `outline` ink;
everything is clipped to the image bounds. -/
def drawRectCorners (c : Canvas) (x0 y0 x1 y1 : Int) (outline fill : Bool) : Canvas :=
  { c with pix := fun px py =>
      if inBoundsB c px py && onRectBorderB x0 y0 x1 y1 px py then outline
      else if inBoundsB c px py && inClosedRectB x0 y0 x1 y1 px py then fill
      else c.pix px py }

/-- `DisplayController.draw_rectangle(x, y, width, height, outline, fill)`:
`draw.rectangle((x, y, x + width, y + height), outline=outline, fill=fill)`
acting on the controller's image. -/
def draw_rectangle (c : Canvas) (x y width height : Int) (outline fill : Bool) : Canvas :=
  drawRectCorners c x y (x + width) (y + height) outline fill

/-- Truncation toward zero, as the C layer of PIL applies (an `(int)` cast)
to each rectangle coordinate that arrives as a Python float. -/
def ratTrunc (q : Rat) : Int := if 0 ≤ q then ⌊q⌋ else -⌊-q⌋

/-- `DisplayController.draw_rectangle` when some of the Python arguments
are floats (as in `draw_cpu_bars`, which passes `load / 100 * bar_width`):
each corner coordinate is truncated toward zero by PIL. -/
def draw_rectangleQ (c : Canvas) (x y width height : Rat) (outline fill : Bool) : Canvas :=
  drawRectCorners c (ratTrunc x) (ratTrunc y) (ratTrunc (x + width)) (ratTrunc (y + height))
    outline fill

/-- `DisplayController.draw_text(x, y, text, font, fill)`:
`draw.text((x, y), text, font=font, fill=fill)`.  The font rasterizer is
external; `mask t dx dy` abstracts the glyph mask of string `t` at offset
`(dx, dy)` from the anchor.  PIL sets exactly the in-bounds mask pixels to
the `fill` ink and leaves every other pixel unchanged. -/
def draw_text (mask : String → Int → Int → Bool) (c : Canvas) (x y : Int)
    (text : String) (fill : Bool) : Canvas :=
  { c with pix := fun px py =>
      if inBoundsB c px py && mask text (px - x) (py - y) then fill
      else c.pix px py }

/-! Uptime widget: `DisplayController.draw_system_uptime` builds its text
as `str(timedelta(seconds=uptime_seconds))[:-7]`, where `uptime_seconds`
is the float read from `/proc/uptime`.  `timedelta` stores the value as a
whole number of microseconds, which we take as the input, so the float
arithmetic itself stays outside the model. -/

/-- Zero-pad the decimal representation of `n` to width `w`
(Python `"%0*d"` for nonnegative values). -/
def padZeros (w n : Nat) : String :=
  String.mk (List.replicate (w - (toString n).length) '0') ++ toString n

/-- `str(timedelta)` for a nonnegative duration of `totalMicros`
microseconds: `[D day(s), ]H:MM:SS[.ffffff]`, with hours unpadded,
minutes/seconds zero-padded to two digits, the day prefix present only for
durations of at least one day and the fractional suffix present only when
the microsecond part is nonzero. -/
def timedeltaStr (totalMicros : Nat) : String :=
  let micros := totalMicros % 1000000
  let totalSeconds := totalMicros / 1000000
  let days := totalSeconds / 86400
  let secs := totalSeconds % 86400
  let base := toString (secs / 3600) ++ ":" ++ padZeros 2 (secs % 3600 / 60) ++ ":" ++
    padZeros 2 (secs % 60)
  let withDays :=
    if days = 0 then base
    else toString days ++ (if days = 1 then " day, " else " days, ") ++ base
  if micros = 0 then withDays else withDays ++ "." ++ padZeros 6 micros

/-- Python `s[:-7]`: all but the last seven characters (empty when the
string has at most seven characters). -/
def pySliceToMinus7 (s : String) : String :=
  String.mk (s.toList.take (s.length - 7))

/-- `get_system_uptime` (inner function of
`DisplayController.draw_system_uptime`): format the uptime with
`str(timedelta(...))` and chop the last seven characters, intended to
strip a `.ffffff` suffix. -/
def get_system_uptime (uptimeMicros : Nat) : String :=
  pySliceToMinus7 (timedeltaStr uptimeMicros)

/-! CPU bars widget: `DisplayController.draw_cpu_bars`. -/

/-- The value returned by `psutil.cpu_percent(interval=1, percpu=percpu)`:
a single float for `percpu=False`, a list with one float per logical core
for `percpu=True`. -/
inductive PyCpuSample where
  | aggregate (v : Rat)
  | perCore (vs : List Rat)

/-- `psutil.cpu_percent(interval=1, percpu=percpu)`, parameterized by the
sampled values. -/
def cpu_percent (percpu : Bool) (aggregate : Rat) (cores : List Rat) : PyCpuSample :=
  if percpu then PyCpuSample.perCore cores else PyCpuSample.aggregate aggregate

/-- The `for load in core_loads` loop of `draw_cpu_bars`, threading the
canvas and the mutable local coordinates `x`, `y`: horizontal bars scale
the width by `load / 100` and step `y` by `bar_height + 1 + padding`,
vertical bars scale the height and step `x` by `bar_width + 1 + padding`. -/
def draw_cpu_bars_list (bar_width bar_height padding : Int) (horizontal : Bool)
    (loads : List Rat) (acc : Canvas × Int × Int) : Canvas × Int × Int :=
  match loads with
  | [] => acc
  | load :: rest =>
    if horizontal then
      draw_cpu_bars_list bar_width bar_height padding horizontal rest
        (draw_rectangleQ acc.1 (acc.2.1 : Int) (acc.2.2 : Int)
            (load / 100 * (bar_width : Rat)) (bar_height : Rat) true true,
          acc.2.1, acc.2.2 + bar_height + 1 + padding)
    else
      draw_cpu_bars_list bar_width bar_height padding horizontal rest
        (draw_rectangleQ acc.1 (acc.2.1 : Int) (acc.2.2 : Int)
            ((bar_width : Rat)) (load / 100 * (bar_height : Rat)) true true,
          acc.2.1 + bar_width + 1 + padding, acc.2.2)

/-- `DisplayController.draw_cpu_bars(x, y, bar_width, bar_height, padding,
horizontal, percpu)`: sample the CPU and iterate over the sample.  When
`percpu=False` the sample is a single Python float and the `for` statement
raises `TypeError`, modeled as the error branch. -/
def draw_cpu_bars (c : Canvas) (x y bar_width bar_height padding : Int)
    (horizontal percpu : Bool) (aggregate : Rat) (cores : List Rat) :
    Except String (Canvas × Int × Int) :=
  match cpu_percent percpu aggregate cores with
  | PyCpuSample.aggregate _ => Except.error "TypeError: float object is not iterable"
  | PyCpuSample.perCore loads =>
    Except.ok (draw_cpu_bars_list bar_width bar_height padding horizontal loads (c, x, y))

/-- One bar per load, the `i`-th anchored at `(x, y + i * step)`: the
spec-shaped description of the horizontal per-core loop, with the stacking
offsets written in closed form. -/
def drawBarsH (bar_width bar_height step x y : Int) (i : Nat) (loads : List Rat)
    (c : Canvas) : Canvas :=
  match loads with
  | [] => c
  | load :: rest =>
    drawBarsH bar_width bar_height step x y (i + 1) rest
      (draw_rectangleQ c ((x : Int) : Rat) (((y + (i : Int) * step) : Int) : Rat)
        (load / 100 * (bar_width : Rat)) ((bar_height : Int) : Rat) true true)

/-- One bar per load, the `i`-th anchored at `(x + i * step, y)`: the
spec-shaped description of the vertical per-core loop. -/
def drawBarsV (bar_width bar_height step x y : Int) (i : Nat) (loads : List Rat)
    (c : Canvas) : Canvas :=
  match loads with
  | [] => c
  | load :: rest =>
    drawBarsV bar_width bar_height step x y (i + 1) rest
      (draw_rectangleQ c (((x + (i : Int) * step) : Int) : Rat) ((y : Int) : Rat)
        ((bar_width : Rat)) (load / 100 * (bar_height : Rat)) true true)

/-! Service status widget: `DisplayController.draw_service_status`. -/

/-- `get_service_status` (inner function of `draw_service_status`):
`q service = (is_active, is_failed)` abstracts the two
`systemctl -q is-active` / `is-failed` exit-status checks; a failed check
wins, then an active one, otherwise the service is reported inactive. -/
def get_service_status (q : String → Bool × Bool) (service : String) : String :=
  let is_active := (q service).1
  let is_failed := (q service).2
  if is_failed then "FAILED"
  else if is_active then "active"
  else "in-active"

/-- One iteration of the `for service in services` loop of
`draw_service_status`: draw the badge that matches the service status into
the accumulated canvas and advance the running `x` cursor by
`rect_width + 2`. -/
def serviceStep (mask : String → Int → Int → Bool) (q : String → Bool × Bool)
    (y : Int) (acc : Canvas × Int) (svc : String × String) : Canvas × Int :=
  let rect_width : Int := 23
  let rect_height : Int := 13
  let status := get_service_status q svc.1
  let c :=
    if status = "FAILED" then
      draw_text mask
        (draw_rectangle (draw_rectangle acc.1 acc.2 y rect_width rect_height true false)
          (acc.2 + 2) (y + 2) (rect_width - 4) (rect_height - 4) true false)
        (acc.2 + 3) (y + 1) svc.2 true
    else if status = "in-active" then
      draw_text mask (draw_rectangle acc.1 acc.2 y rect_width rect_height true false)
        (acc.2 + 3) (y + 1) svc.2 true
    else acc.1
  (c, acc.2 + (rect_width + 2))

/-- `DisplayController.draw_service_status(x, y, services)`: fold the
per-service step over the ordered service list, starting the cursor at
`x`; the second component is the final cursor position. -/
def draw_service_status (mask : String → Int → Int → Bool) (q : String → Bool × Bool)
    (c : Canvas) (x y : Int) (services : List (String × String)) : Canvas × Int :=
  services.foldl (serviceStep mask q y) (c, x)

/-- A concrete label mask used by the witnesses: ink exactly on the
anchor column. -/
def witnessMask : String → Int → Int → Bool :=
  fun _ dx dy => decide (dx = 0) && decide (dy = 0)

/-- Status query reporting every service active. -/
def queryActive : String → Bool × Bool := fun _ => (true, false)

/-- Status query reporting every service stopped but not failed. -/
def queryInactive : String → Bool × Bool := fun _ => (false, false)

/-- Status query reporting every service failed (and not active). -/
def queryFailed : String → Bool × Bool := fun _ => (false, true)

/-- Status query whose is-active and is-failed checks both succeed. -/
def queryBoth : String → Bool × Bool := fun _ => (true, true)

/-! Controller state and device-handle calls. -/

/-- A call made on the display device handle `self._display`:
`clear()` (reset the driver's in-memory buffer), `image(...)` (load the
canvas into the driver buffer) and `display()` (commit the buffer to the
physical panel over the bus — the actual device I/O). -/
inductive DevCall where
  | devClear
  | devImage
  | devDisplay
deriving DecidableEq

/-- The `DisplayController` state: the panel geometry reported by the
device at construction and the current in-memory canvas `self._image`. -/
structure ControllerState where
  displayWidth : Nat
  displayHeight : Nat
  image : Canvas

/-- `DisplayController.clear_canvas(render)`: replace `self._image` with a
clean canvas of the display size, call `self._display.clear()`
unconditionally, and call `self._display.display()` only when `render` is
true. -/
def clear_canvas (s : ControllerState) (render : Bool) : ControllerState × List DevCall :=
  ({ s with image := get_clean_canvas s.displayWidth s.displayHeight },
    if render then [DevCall.devClear, DevCall.devDisplay] else [DevCall.devClear])

/-- `DisplayController.render_canvas()`: `self._display.image(self._image)`
followed by `self._display.display()`; the controller state is unchanged. -/
def render_canvas (s : ControllerState) : ControllerState × List DevCall :=
  (s, [DevCall.devImage, DevCall.devDisplay])

/-- The `DisplayController` operations invoked by the render loop, with
their metric snapshots as data (uptime in microseconds, per-core loads,
service-status query results). -/
inductive ControllerOp where
  | clearCanvasOp (render : Bool)
  | drawRectangleOp (x y w h : Int) (outline fill : Bool)
  | drawTextOp (x y : Int) (text : String) (fill : Bool)
  | drawUptimeOp (x y : Int) (uptimeMicros : Nat)
  | drawCpuBarsOp (x y bar_width bar_height padding : Int) (horizontal : Bool)
      (loads : List Rat)
  | drawServiceStatusOp (x y : Int) (services : List (String × String))
  | renderCanvasOp

/-- Run one controller operation from the source: the new controller state
and the calls made on the device handle during the operation.  All drawing
operations mutate only the in-memory canvas and make no device calls. -/
def runOp (mask : String → Int → Int → Bool) (q : String → Bool × Bool)
    (s : ControllerState) : ControllerOp → ControllerState × List DevCall
  | ControllerOp.clearCanvasOp r => clear_canvas s r
  | ControllerOp.drawRectangleOp x y w h o f =>
    ({ s with image := draw_rectangle s.image x y w h o f }, [])
  | ControllerOp.drawTextOp x y t f =>
    ({ s with image := draw_text mask s.image x y t f }, [])
  | ControllerOp.drawUptimeOp x y m =>
    ({ s with image := draw_text mask s.image x y (get_system_uptime m) true }, [])
  | ControllerOp.drawCpuBarsOp x y bw bh pad hz loads =>
    ({ s with image := (draw_cpu_bars_list bw bh pad hz loads (s.image, x, y)).1 }, [])
  | ControllerOp.drawServiceStatusOp x y svcs =>
    ({ s with image := (draw_service_status mask q s.image x y svcs).1 }, [])
  | ControllerOp.renderCanvasOp => render_canvas s

/-- Run a sequence of controller operations, keeping only the state. -/
def runOps (mask : String → Int → Int → Bool) (q : String → Bool × Bool)
    (s : ControllerState) : List ControllerOp → ControllerState
  | [] => s
  | op :: rest => runOps mask q (runOp mask q s op).1 rest

/-! SIGINT handling of the demo script. -/

/-- How the process run ends after the handler fires. -/
inductive ProcessOutcome where
  | exited (code : Nat)
  | raised (msg : String)
deriving DecidableEq

/-- `signal_handler`: executes `controller.clear_canvas(True)` and then
`sys.exit(0)`.  The handler body has no exception handling, so the
embedding is parameterized by the runtime outcome of the device clear: on
success the next statement exits with status 0, on an exception the
exception propagates out of the handler and `sys.exit(0)` is never
reached. -/
def signal_handler (clearResult : Except String Unit) : ProcessOutcome :=
  match clearResult with
  | Except.ok _ => ProcessOutcome.exited 0
  | Except.error e => ProcessOutcome.raised e

/-! Theorems. -/

/-! Bridging lemmas between the boolean pixel tests and arithmetic. -/

theorem inBoundsB_iff (c : Canvas) (px py : Int) :
    inBoundsB c px py = true ↔
      0 ≤ px ∧ px < (c.width : Int) ∧ 0 ≤ py ∧ py < (c.height : Int) := by
  simp [inBoundsB, and_assoc]

theorem inClosedRectB_iff (x0 y0 x1 y1 px py : Int) :
    inClosedRectB x0 y0 x1 y1 px py = true ↔
      min x0 x1 ≤ px ∧ px ≤ max x0 x1 ∧ min y0 y1 ≤ py ∧ py ≤ max y0 y1 := by
  simp [inClosedRectB, and_assoc]

theorem onRectBorderB_iff (x0 y0 x1 y1 px py : Int) :
    onRectBorderB x0 y0 x1 y1 px py = true ↔
      inClosedRectB x0 y0 x1 y1 px py = true ∧
        (px = min x0 x1 ∨ px = max x0 x1 ∨ py = min y0 y1 ∨ py = max y0 y1) := by
  simp [onRectBorderB, or_assoc]

theorem onRectBorderB_le_inClosedRectB (x0 y0 x1 y1 px py : Int)
    (h : onRectBorderB x0 y0 x1 y1 px py = true) :
    inClosedRectB x0 y0 x1 y1 px py = true :=
  ((onRectBorderB_iff x0 y0 x1 y1 px py).mp h).1

theorem drawRectCorners_width (c : Canvas) (x0 y0 x1 y1 : Int) (o f : Bool) :
    (drawRectCorners c x0 y0 x1 y1 o f).width = c.width := rfl

theorem drawRectCorners_height (c : Canvas) (x0 y0 x1 y1 : Int) (o f : Bool) :
    (drawRectCorners c x0 y0 x1 y1 o f).height = c.height := rfl

/-- With `outline = fill = true` the border case is absorbed: the draw sets
exactly the in-bounds pixels of the closed rectangle to foreground. -/
theorem drawRectCorners_true_true_pix (c : Canvas) (x0 y0 x1 y1 px py : Int) :
    (drawRectCorners c x0 y0 x1 y1 true true).pix px py =
      if inBoundsB c px py && inClosedRectB x0 y0 x1 y1 px py then true
      else c.pix px py := by
  show (if inBoundsB c px py && onRectBorderB x0 y0 x1 y1 px py then true
      else if inBoundsB c px py && inClosedRectB x0 y0 x1 y1 px py then true
      else c.pix px py) = _
  cases hB : inBoundsB c px py with
  | false => simp
  | true =>
    cases hR : inClosedRectB x0 y0 x1 y1 px py with
    | false =>
      have hBo : onRectBorderB x0 y0 x1 y1 px py = false := by
        cases hBo : onRectBorderB x0 y0 x1 y1 px py with
        | false => rfl
        | true => rw [onRectBorderB_le_inClosedRectB _ _ _ _ _ _ hBo] at hR; exact hR
      simp [hBo]
    | true =>
      cases hBo : onRectBorderB x0 y0 x1 y1 px py <;> simp [hBo]

/-- Pixels outside the closed rectangle are never touched by a rectangle
draw, whatever the ink arguments. -/
theorem drawRectCorners_pix_outside (c : Canvas) (x0 y0 x1 y1 px py : Int) (o f : Bool)
    (h : inClosedRectB x0 y0 x1 y1 px py = false) :
    (drawRectCorners c x0 y0 x1 y1 o f).pix px py = c.pix px py := by
  have hBo : onRectBorderB x0 y0 x1 y1 px py = false := by
    cases hBo : onRectBorderB x0 y0 x1 y1 px py with
    | false => rfl
    | true => rw [onRectBorderB_le_inClosedRectB _ _ _ _ _ _ hBo] at h; exact h
  show (if _ && _ then _ else if _ && _ then _ else _) = _
  simp [h, hBo]

/-- Out-of-bounds pixels are never touched by a rectangle draw. -/
theorem drawRectCorners_pix_oob (c : Canvas) (x0 y0 x1 y1 px py : Int) (o f : Bool)
    (h : inBoundsB c px py = false) :
    (drawRectCorners c x0 y0 x1 y1 o f).pix px py = c.pix px py := by
  show (if _ && _ then _ else if _ && _ then _ else _) = _
  simp [h]

/-- Claim C1 counterexample.  On a cleared 4×4 canvas,
`draw_rectangle(0, 0, 2, 2, fill=True)` sets pixel `(2, 2)` to foreground
although `(2, 2)` lies outside the half-open region `[0,2) × [0,2)` and was
background before the call: PIL covers both corners, so the affected region
is the closed rectangle `[x, x+w] × [y, y+h]`, not the half-open one. -/
theorem fill_draw_sets_pixel_outside_halfopen_region :
    (draw_rectangle (get_clean_canvas 4 4) 0 0 2 2 true true).pix 2 2 = true ∧
      (get_clean_canvas 4 4).pix 2 2 = false := by
  constructor
  · decide
  · rfl

/-- Claim C1 (amended): for `fill=true` (with the default `outline=true`)
and nonnegative `w`, `h`, every in-bounds pixel of the closed region
`[x, x+w] × [y, y+h]` is foreground after the call, and every pixel outside
that closed region, as well as every out-of-bounds pixel, holds the value
it held before the call. -/
theorem fill_draw_covers_closed_rect_and_preserves_outside
    (c : Canvas) (x y w h px py : Int) (hw : 0 ≤ w) (hh : 0 ≤ h) :
    ((0 ≤ px ∧ px < (c.width : Int) ∧ 0 ≤ py ∧ py < (c.height : Int)) →
       (x ≤ px ∧ px ≤ x + w ∧ y ≤ py ∧ py ≤ y + h) →
       (draw_rectangle c x y w h true true).pix px py = true) ∧
    (¬(x ≤ px ∧ px ≤ x + w ∧ y ≤ py ∧ py ≤ y + h) →
       (draw_rectangle c x y w h true true).pix px py = c.pix px py) ∧
    (¬(0 ≤ px ∧ px < (c.width : Int) ∧ 0 ≤ py ∧ py < (c.height : Int)) →
       (draw_rectangle c x y w h true true).pix px py = c.pix px py) := by
  have hminx : min x (x + w) = x := min_eq_left (by omega)
  have hmaxx : max x (x + w) = x + w := max_eq_right (by omega)
  have hminy : min y (y + h) = y := min_eq_left (by omega)
  have hmaxy : max y (y + h) = y + h := max_eq_right (by omega)
  have hRect : ∀ hin : x ≤ px ∧ px ≤ x + w ∧ y ≤ py ∧ py ≤ y + h,
      inClosedRectB x y (x + w) (y + h) px py = true := by
    intro hin
    rw [inClosedRectB_iff, hminx, hmaxx, hminy, hmaxy]
    exact hin
  refine ⟨fun hb hin => ?_, fun hout => ?_, fun hoob => ?_⟩
  · rw [draw_rectangle, drawRectCorners_true_true_pix,
      (inBoundsB_iff c px py).mpr hb, hRect hin]
    rfl
  · apply drawRectCorners_pix_outside
    cases hR : inClosedRectB x y (x + w) (y + h) px py with
    | false => rfl
    | true =>
      rw [inClosedRectB_iff, hminx, hmaxx, hminy, hmaxy] at hR
      exact absurd hR hout
  · apply drawRectCorners_pix_oob
    cases hB : inBoundsB c px py with
    | false => rfl
    | true => rw [inBoundsB_iff] at hB; exact absurd hB hoob

/-- Witness for the amended C1 theorem at a concrete input: a filled
`2 × 2`-argument draw at the origin of a cleared 4×4 canvas makes the
in-bounds interior pixel `(1, 1)` foreground and leaves `(3, 3)`, which is
outside the closed rectangle, unchanged. -/
theorem fill_draw_closed_rect_witness :
    (0 : Int) ≤ 2 ∧
      (draw_rectangle (get_clean_canvas 4 4) 0 0 2 2 true true).pix 1 1 = true ∧
      (draw_rectangle (get_clean_canvas 4 4) 0 0 2 2 true true).pix 3 3 =
        (get_clean_canvas 4 4).pix 3 3 := by
  refine ⟨by decide, ?_, ?_⟩
  · exact (fill_draw_covers_closed_rect_and_preserves_outside
      (get_clean_canvas 4 4) 0 0 2 2 1 1 (by decide) (by decide)).1
      (by refine ⟨by decide, by decide, by decide, by decide⟩)
      (by refine ⟨by decide, by decide, by decide, by decide⟩)
  · exact (fill_draw_covers_closed_rect_and_preserves_outside
      (get_clean_canvas 4 4) 0 0 2 2 3 3 (by decide) (by decide)).2.1
      (by intro hin; exact absurd hin.2.1 (by decide))

/-- Claim C7 counterexample.  A rectangle draw with `width = height = 0` is
not a no-op: on a cleared 4×4 canvas, `draw_rectangle(1, 1, 0, 0)` sets the
single pixel `(1, 1)` to foreground (PIL draws the closed rectangle between
the two coinciding corners), so the buffer differs from the buffer before
the call. -/
theorem zero_size_draw_mutates_pixel :
    (draw_rectangle (get_clean_canvas 4 4) 1 1 0 0 true true).pix 1 1 = true ∧
      (get_clean_canvas 4 4).pix 1 1 = false := by
  constructor
  · decide
  · rfl

/-- Claim C7 (amended): a rectangle draw with negative or zero `w` or `h`
does not draw nothing; PIL normalizes the corners, so the draw (with the
default inks) sets every in-bounds pixel of the closed rectangle between
`(x, y)` and `(x+w, y+h)` to foreground and leaves exactly the pixels
outside that closed region (and the out-of-bounds pixels) unchanged. -/
theorem nonpositive_size_draw_draws_normalized_rect
    (c : Canvas) (x y w h px py : Int) (_hwh : w ≤ 0 ∨ h ≤ 0) :
    ((0 ≤ px ∧ px < (c.width : Int) ∧ 0 ≤ py ∧ py < (c.height : Int)) →
       (min x (x + w) ≤ px ∧ px ≤ max x (x + w) ∧
         min y (y + h) ≤ py ∧ py ≤ max y (y + h)) →
       (draw_rectangle c x y w h true true).pix px py = true) ∧
    (¬(min x (x + w) ≤ px ∧ px ≤ max x (x + w) ∧
         min y (y + h) ≤ py ∧ py ≤ max y (y + h)) →
       (draw_rectangle c x y w h true true).pix px py = c.pix px py) := by
  refine ⟨fun hb hin => ?_, fun hout => ?_⟩
  · rw [draw_rectangle, drawRectCorners_true_true_pix,
      (inBoundsB_iff c px py).mpr hb, (inClosedRectB_iff _ _ _ _ _ _).mpr hin]
    rfl
  · apply drawRectCorners_pix_outside
    cases hR : inClosedRectB x y (x + w) (y + h) px py with
    | false => rfl
    | true => rw [inClosedRectB_iff] at hR; exact absurd hR hout

/-- Witness for the amended C7 theorem: a draw with `w = -2`, `h = 0`
anchored at `(3, 1)` on a cleared 4×4 canvas makes pixel `(2, 1)` (inside
the normalized closed rectangle `[1,3] × [1,1]`) foreground. -/
theorem nonpositive_size_draw_witness :
    (-2 : Int) ≤ 0 ∧
      (draw_rectangle (get_clean_canvas 4 4) 3 1 (-2) 0 true true).pix 2 1 = true := by
  refine ⟨by decide, ?_⟩
  exact (nonpositive_size_draw_draws_normalized_rect
    (get_clean_canvas 4 4) 3 1 (-2) 0 2 1 (Or.inl (by decide))).1
    (by refine ⟨by decide, by decide, by decide, by decide⟩)
    (by refine ⟨by decide, by decide, by decide, by decide⟩)

/-- Claim C4 evaluation at the failing input.  At exactly 3661 seconds of
uptime the `timedelta` string is `1:01:01` with no fractional suffix, so
the `[:-7]` slice deletes the whole timestamp and the widget renders the
empty string instead of the claimed `1:01:01`; the claimed boundary values
0 s, 59 s and 3600 s also render empty, and 86399 s renders `2` (the
slice leaves the first character of `23:59:59`).  Only when the
microsecond part is nonzero (as in 3661.47 s) does the code produce the
intended `H:MM:SS` form. -/
theorem uptime_whole_seconds_truncated :
    get_system_uptime (3661 * 1000000) = "" ∧
      get_system_uptime 0 = "" ∧
      get_system_uptime (59 * 1000000) = "" ∧
      get_system_uptime (3600 * 1000000) = "" ∧
      get_system_uptime (86399 * 1000000) = "2" ∧
      get_system_uptime 3661470000 = "1:01:01" ∧
      timedeltaStr (3661 * 1000000) = "1:01:01" := by
  refine ⟨rfl, rfl, rfl, rfl, rfl, rfl, rfl⟩

/-- Claim C5 evaluation.  With `percpu=False`, `psutil.cpu_percent`
returns one aggregate float and `for load in core_loads` raises
`TypeError: float object is not iterable`; no rectangle is drawn, for
every canvas, coordinates, bar geometry and sampled load. -/
theorem cpu_bars_aggregate_type_error (c : Canvas) (x y bar_width bar_height padding : Int)
    (horizontal : Bool) (aggregate : Rat) (cores : List Rat) :
    draw_cpu_bars c x y bar_width bar_height padding horizontal false aggregate cores =
      Except.error "TypeError: float object is not iterable" := rfl

/-! Layout of per-core bars (`percpu=True`). -/

theorem ratTrunc_intCast (n : Int) : ratTrunc ((n : Int) : Rat) = n := by
  unfold ratTrunc
  split
  · simp
  · rw [show (-((n : Int) : Rat)) = ((-n : Int) : Rat) by push_cast; ring, Int.floor_intCast]
    ring

theorem ratTrunc_intCast_add (a b : Int) :
    ratTrunc (((a : Int) : Rat) + ((b : Int) : Rat)) = a + b := by
  rw [show ((a : Int) : Rat) + ((b : Int) : Rat) = ((a + b : Int) : Rat) by push_cast; ring,
    ratTrunc_intCast]

theorem draw_cpu_bars_list_eq_drawBarsH (bar_width bar_height padding : Int)
    (loads : List Rat) : ∀ (c : Canvas) (x y : Int) (i : Nat),
    draw_cpu_bars_list bar_width bar_height padding true loads
        (c, x, y + (i : Int) * (bar_height + 1 + padding)) =
      (drawBarsH bar_width bar_height (bar_height + 1 + padding) x y i loads c, x,
        y + ((i : Int) + (loads.length : Int)) * (bar_height + 1 + padding)) := by
  induction loads with
  | nil =>
    intro c x y i
    simp [draw_cpu_bars_list, drawBarsH]
  | cons load rest ih =>
    intro c x y i
    show draw_cpu_bars_list bar_width bar_height padding true rest
        (draw_rectangleQ c _ _ _ _ true true, x,
          y + (i : Int) * (bar_height + 1 + padding) + bar_height + 1 + padding) = _
    rw [show y + (i : Int) * (bar_height + 1 + padding) + bar_height + 1 + padding =
        y + (((i + 1 : Nat)) : Int) * (bar_height + 1 + padding) by push_cast; ring]
    rw [ih]
    have harith : (((i + 1 : Nat) : Nat) : Int) + ((rest.length : Nat) : Int) =
        ((i : Nat) : Int) + (((load :: rest).length : Nat) : Int) := by
      push_cast [List.length_cons]
      ring
    rw [harith]
    rfl

theorem draw_cpu_bars_list_eq_drawBarsV (bar_width bar_height padding : Int)
    (loads : List Rat) : ∀ (c : Canvas) (x y : Int) (i : Nat),
    draw_cpu_bars_list bar_width bar_height padding false loads
        (c, x + (i : Int) * (bar_width + 1 + padding), y) =
      (drawBarsV bar_width bar_height (bar_width + 1 + padding) x y i loads c,
        x + ((i : Int) + (loads.length : Int)) * (bar_width + 1 + padding), y) := by
  induction loads with
  | nil =>
    intro c x y i
    simp [draw_cpu_bars_list, drawBarsV]
  | cons load rest ih =>
    intro c x y i
    show draw_cpu_bars_list bar_width bar_height padding false rest
        (draw_rectangleQ c _ _ _ _ true true,
          x + (i : Int) * (bar_width + 1 + padding) + bar_width + 1 + padding, y) = _
    rw [show x + (i : Int) * (bar_width + 1 + padding) + bar_width + 1 + padding =
        x + (((i + 1 : Nat)) : Int) * (bar_width + 1 + padding) by push_cast; ring]
    rw [ih]
    have harith : (((i + 1 : Nat) : Nat) : Int) + ((rest.length : Nat) : Int) =
        ((i : Nat) : Int) + (((load :: rest).length : Nat) : Int) := by
      push_cast [List.length_cons]
      ring
    rw [harith]
    rfl

/-- A rectangle draw never touches a pixel whose row lies outside the
closed row range of the rectangle. -/
theorem drawRectCorners_row_band (c : Canvas) (x0 y0 x1 y1 px py : Int) (o f : Bool)
    (h : ¬(min y0 y1 ≤ py ∧ py ≤ max y0 y1)) :
    (drawRectCorners c x0 y0 x1 y1 o f).pix px py = c.pix px py := by
  apply drawRectCorners_pix_outside
  cases hR : inClosedRectB x0 y0 x1 y1 px py with
  | false => rfl
  | true =>
    rw [inClosedRectB_iff] at hR
    exact absurd ⟨hR.2.2.1, hR.2.2.2⟩ h

/-- A rectangle draw never touches a pixel whose column lies outside the
closed column range of the rectangle. -/
theorem drawRectCorners_col_band (c : Canvas) (x0 y0 x1 y1 px py : Int) (o f : Bool)
    (h : ¬(min x0 x1 ≤ px ∧ px ≤ max x0 x1)) :
    (drawRectCorners c x0 y0 x1 y1 o f).pix px py = c.pix px py := by
  apply drawRectCorners_pix_outside
  cases hR : inClosedRectB x0 y0 x1 y1 px py with
  | false => rfl
  | true =>
    rw [inClosedRectB_iff] at hR
    exact absurd ⟨hR.1, hR.2.1⟩ h

/-- Claim C6: with `percpu=true` and `N` sampled core loads the loop draws
exactly one bar per load.  Horizontally (stacking along `y`) the run of the
loop equals drawing, for each index `i < N`, one filled rectangle anchored
at `(x, y + i * (bar_height + 1 + padding))`, and it leaves the cursor at
`y + N * (bar_height + 1 + padding)`, so successive anchors differ by
exactly `bar_height + 1 + padding` along `y`; each bar only touches the
rows of its own band `[anchor, anchor + bar_height]`, and for nonnegative
thickness and padding the bands of distinct bars are disjoint.  The
vertical orientation is the mirror image along `x`. -/
theorem cpu_bars_percore_layout (c : Canvas) (x y bar_width bar_height padding : Int)
    (loads : List Rat) (hbh : 0 ≤ bar_height) (hbw : 0 ≤ bar_width) (hpad : 0 ≤ padding) :
    (draw_cpu_bars c x y bar_width bar_height padding true true 0 loads =
      Except.ok (drawBarsH bar_width bar_height (bar_height + 1 + padding) x y 0 loads c, x,
        y + (loads.length : Int) * (bar_height + 1 + padding))) ∧
    (∀ i : Nat, (y + ((i : Int) + 1) * (bar_height + 1 + padding)) -
        (y + (i : Int) * (bar_height + 1 + padding)) = bar_height + 1 + padding) ∧
    (∀ (cv : Canvas) (load : Rat) (i : Nat) (px py : Int),
       ¬(y + (i : Int) * (bar_height + 1 + padding) ≤ py ∧
           py ≤ y + (i : Int) * (bar_height + 1 + padding) + bar_height) →
       (draw_rectangleQ cv ((x : Int) : Rat)
           (((y + (i : Int) * (bar_height + 1 + padding)) : Int) : Rat)
           (load / 100 * (bar_width : Rat)) ((bar_height : Int) : Rat) true true).pix px py =
         cv.pix px py) ∧
    (∀ i j : Nat, i < j →
       y + (i : Int) * (bar_height + 1 + padding) + bar_height <
         y + (j : Int) * (bar_height + 1 + padding)) ∧
    (draw_cpu_bars c x y bar_width bar_height padding false true 0 loads =
      Except.ok (drawBarsV bar_width bar_height (bar_width + 1 + padding) x y 0 loads c,
        x + (loads.length : Int) * (bar_width + 1 + padding), y)) ∧
    (∀ (cv : Canvas) (load : Rat) (i : Nat) (px py : Int),
       ¬(x + (i : Int) * (bar_width + 1 + padding) ≤ px ∧
           px ≤ x + (i : Int) * (bar_width + 1 + padding) + bar_width) →
       (draw_rectangleQ cv (((x + (i : Int) * (bar_width + 1 + padding)) : Int) : Rat)
           ((y : Int) : Rat) ((bar_width : Rat))
           (load / 100 * (bar_height : Rat)) true true).pix px py = cv.pix px py) ∧
    (∀ i j : Nat, i < j →
       x + (i : Int) * (bar_width + 1 + padding) + bar_width <
         x + (j : Int) * (bar_width + 1 + padding)) := by
  refine ⟨?_, fun i => by ring, fun cv load i px py h => ?_, fun i j hij => ?_,
    ?_, fun cv load i px py h => ?_, fun i j hij => ?_⟩
  · show Except.ok (draw_cpu_bars_list bar_width bar_height padding true loads (c, x, y)) = _
    rw [show (c, x, y) = (c, x, y + ((0 : Nat) : Int) * (bar_height + 1 + padding)) by
        refine Prod.ext rfl (Prod.ext rfl ?_); push_cast; ring,
      draw_cpu_bars_list_eq_drawBarsH]
    refine congrArg Except.ok (Prod.ext rfl (Prod.ext rfl ?_))
    push_cast
    ring
  · simp only [draw_rectangleQ]
    rw [ratTrunc_intCast (y + (i : Int) * (bar_height + 1 + padding)),
      ratTrunc_intCast_add (y + (i : Int) * (bar_height + 1 + padding)) bar_height]
    apply drawRectCorners_row_band
    rw [min_eq_left (le_add_of_nonneg_right hbh), max_eq_right (le_add_of_nonneg_right hbh)]
    exact h
  · have hij' : (i : Int) + 1 ≤ (j : Int) := by exact_mod_cast hij
    have hs : ((i : Int) + 1) * (bar_height + 1 + padding) ≤
        (j : Int) * (bar_height + 1 + padding) :=
      mul_le_mul_of_nonneg_right hij' (by linarith)
    linarith
  · show Except.ok (draw_cpu_bars_list bar_width bar_height padding false loads (c, x, y)) = _
    rw [show ((c, x, y) : Canvas × Int × Int) =
        (c, x + ((0 : Nat) : Int) * (bar_width + 1 + padding), y) by
        refine Prod.ext rfl (Prod.ext ?_ rfl); push_cast; ring,
      draw_cpu_bars_list_eq_drawBarsV]
    refine congrArg Except.ok (Prod.ext rfl (Prod.ext ?_ rfl))
    push_cast
    ring
  · simp only [draw_rectangleQ]
    rw [ratTrunc_intCast (x + (i : Int) * (bar_width + 1 + padding)),
      ratTrunc_intCast_add (x + (i : Int) * (bar_width + 1 + padding)) bar_width]
    apply drawRectCorners_col_band
    rw [min_eq_left (le_add_of_nonneg_right hbw), max_eq_right (le_add_of_nonneg_right hbw)]
    exact h
  · have hij' : (i : Int) + 1 ≤ (j : Int) := by exact_mod_cast hij
    have hs : ((i : Int) + 1) * (bar_width + 1 + padding) ≤
        (j : Int) * (bar_width + 1 + padding) :=
      mul_le_mul_of_nonneg_right hij' (by linarith)
    linarith

/-! Helper lemmas for the badge pixels. -/

theorem drawRectCorners_pix (c : Canvas) (x0 y0 x1 y1 : Int) (o f : Bool) (px py : Int) :
    (drawRectCorners c x0 y0 x1 y1 o f).pix px py =
      if inBoundsB c px py && onRectBorderB x0 y0 x1 y1 px py then o
      else if inBoundsB c px py && inClosedRectB x0 y0 x1 y1 px py then f
      else c.pix px py := rfl

theorem draw_text_pix (mask : String → Int → Int → Bool) (c : Canvas) (x y : Int)
    (t : String) (f : Bool) (px py : Int) :
    (draw_text mask c x y t f).pix px py =
      if inBoundsB c px py && mask t (px - x) (py - y) then f
      else c.pix px py := rfl

/-- Drawing text with foreground ink never clears a pixel. -/
theorem draw_text_pix_of_true (mask : String → Int → Int → Bool) (c : Canvas) (x y : Int)
    (t : String) (px py : Int) (h : c.pix px py = true) :
    (draw_text mask c x y t true).pix px py = true := by
  rw [draw_text_pix]
  split
  · rfl
  · exact h

theorem draw_text_pix_mask (mask : String → Int → Int → Bool) (c : Canvas) (x y : Int)
    (t : String) (px py : Int) (hb : inBoundsB c px py = true)
    (hm : mask t (px - x) (py - y) = true) :
    (draw_text mask c x y t true).pix px py = true := by
  rw [draw_text_pix, hb, hm]
  rfl

theorem draw_text_pix_unchanged (mask : String → Int → Int → Bool) (c : Canvas) (x y : Int)
    (t : String) (f : Bool) (px py : Int) (hm : mask t (px - x) (py - y) = false) :
    (draw_text mask c x y t f).pix px py = c.pix px py := by
  rw [draw_text_pix, hm]
  simp

/-- An in-bounds border pixel receives the outline ink. -/
theorem drawRect_outline_border_pix (c : Canvas) (x0 y0 x1 y1 : Int) (f : Bool)
    (px py : Int) (hb : inBoundsB c px py = true)
    (hbo : onRectBorderB x0 y0 x1 y1 px py = true) :
    (drawRectCorners c x0 y0 x1 y1 true f).pix px py = true := by
  rw [drawRectCorners_pix, hb, hbo]
  rfl

theorem inClosedRectB_iff_of_le (x0 y0 x1 y1 px py : Int) (hx : x0 ≤ x1) (hy : y0 ≤ y1) :
    inClosedRectB x0 y0 x1 y1 px py = true ↔
      x0 ≤ px ∧ px ≤ x1 ∧ y0 ≤ py ∧ py ≤ y1 := by
  rw [inClosedRectB_iff, min_eq_left hx, max_eq_right hx, min_eq_left hy, max_eq_right hy]

theorem onRectBorderB_iff_of_le (x0 y0 x1 y1 px py : Int) (hx : x0 ≤ x1) (hy : y0 ≤ y1) :
    onRectBorderB x0 y0 x1 y1 px py = true ↔
      (x0 ≤ px ∧ px ≤ x1 ∧ y0 ≤ py ∧ py ≤ y1) ∧
        (px = x0 ∨ px = x1 ∨ py = y0 ∨ py = y1) := by
  rw [onRectBorderB_iff, inClosedRectB_iff_of_le x0 y0 x1 y1 px py hx hy,
    min_eq_left hx, max_eq_right hx, min_eq_left hy, max_eq_right hy]

/-- A pixel on the border of the outer `23 × 13`-argument badge rectangle
is outside the closed inner rectangle (which is inset by two pixels on
every side). -/
theorem outer_border_outside_inner (x y px py : Int)
    (hbo : onRectBorderB x y (x + 23) (y + 13) px py = true) :
    inClosedRectB (x + 2) (y + 2) (x + 2 + (23 - 4)) (y + 2 + (13 - 4)) px py = false := by
  rw [onRectBorderB_iff_of_le x y (x + 23) (y + 13) px py (by omega) (by omega)] at hbo
  cases hR : inClosedRectB (x + 2) (y + 2) (x + 2 + (23 - 4)) (y + 2 + (13 - 4)) px py with
  | false => rfl
  | true =>
    rw [inClosedRectB_iff_of_le _ _ _ _ px py (by omega) (by omega)] at hR
    omega

/-- A pixel outside the closed outer badge rectangle is also outside the
closed inner one. -/
theorem outside_outer_outside_inner (x y px py : Int)
    (hR : inClosedRectB x y (x + 23) (y + 13) px py = false) :
    inClosedRectB (x + 2) (y + 2) (x + 2 + (23 - 4)) (y + 2 + (13 - 4)) px py = false := by
  cases hI : inClosedRectB (x + 2) (y + 2) (x + 2 + (23 - 4)) (y + 2 + (13 - 4)) px py with
  | false => rfl
  | true =>
    rw [inClosedRectB_iff_of_le _ _ _ _ px py (by omega) (by omega)] at hI
    have hO : inClosedRectB x y (x + 23) (y + 13) px py = true := by
      rw [inClosedRectB_iff_of_le x y (x + 23) (y + 13) px py (by omega) (by omega)]
      omega
    rw [hO] at hR
    exact Bool.noConfusion hR

theorem get_service_status_active (q : String → Bool × Bool) (svc : String)
    (h2 : (q svc).2 = false) (h1 : (q svc).1 = true) :
    get_service_status q svc = "active" := by
  simp [get_service_status, h1, h2]

theorem get_service_status_inactive (q : String → Bool × Bool) (svc : String)
    (h2 : (q svc).2 = false) (h1 : (q svc).1 = false) :
    get_service_status q svc = "in-active" := by
  simp [get_service_status, h1, h2]

theorem get_service_status_failed (q : String → Bool × Bool) (svc : String)
    (h2 : (q svc).2 = true) :
    get_service_status q svc = "FAILED" := by
  simp [get_service_status, h2]

theorem serviceStep_fst_failed (mask : String → Int → Int → Bool)
    (q : String → Bool × Bool) (c : Canvas) (x y : Int) (svc label : String)
    (h2 : (q svc).2 = true) :
    (serviceStep mask q y (c, x) (svc, label)).1 =
      draw_text mask
        (draw_rectangle (draw_rectangle c x y 23 13 true false)
          (x + 2) (y + 2) (23 - 4) (13 - 4) true false)
        (x + 3) (y + 1) label true := by
  show (if get_service_status q svc = "FAILED" then _ else _) = _
  rw [get_service_status_failed q svc h2, if_pos rfl]

theorem serviceStep_fst_inactive (mask : String → Int → Int → Bool)
    (q : String → Bool × Bool) (c : Canvas) (x y : Int) (svc label : String)
    (h2 : (q svc).2 = false) (h1 : (q svc).1 = false) :
    (serviceStep mask q y (c, x) (svc, label)).1 =
      draw_text mask (draw_rectangle c x y 23 13 true false) (x + 3) (y + 1) label true := by
  show (if get_service_status q svc = "FAILED" then _
    else if get_service_status q svc = "in-active" then _ else _) = _
  rw [get_service_status_inactive q svc h2 h1,
    if_neg (show ¬("in-active" : String) = "FAILED" by decide), if_pos rfl]

/-- Claim C3: per service, the badge loop draws nothing when the status
checks report active, a single `23 × 13`-argument outline box plus the
label for an inactive service, the outer box plus an inner box inset by
two pixels on each side plus the label for a failed service — every
in-bounds pixel on the relevant borders, and every in-bounds label-mask
pixel, is foreground afterwards, while pixels outside the closed outer
rectangle and outside the label mask are untouched — and in every case the
x-cursor advances by exactly 25 pixels. -/
theorem draw_service_status_cases (mask : String → Int → Int → Bool)
    (q : String → Bool × Bool) (c : Canvas) (x y : Int) (svc label : String) :
    ((serviceStep mask q y (c, x) (svc, label)).2 = x + 25) ∧
    ((q svc).2 = false → (q svc).1 = true →
      (serviceStep mask q y (c, x) (svc, label)).1 = c) ∧
    ((q svc).2 = false → (q svc).1 = false → ∀ px py : Int,
      (inBoundsB c px py = true → onRectBorderB x y (x + 23) (y + 13) px py = true →
        (serviceStep mask q y (c, x) (svc, label)).1.pix px py = true) ∧
      (inBoundsB c px py = true → mask label (px - (x + 3)) (py - (y + 1)) = true →
        (serviceStep mask q y (c, x) (svc, label)).1.pix px py = true) ∧
      (inClosedRectB x y (x + 23) (y + 13) px py = false →
        mask label (px - (x + 3)) (py - (y + 1)) = false →
        (serviceStep mask q y (c, x) (svc, label)).1.pix px py = c.pix px py)) ∧
    ((q svc).2 = true → ∀ px py : Int,
      (inBoundsB c px py = true →
        (onRectBorderB x y (x + 23) (y + 13) px py = true ∨
          onRectBorderB (x + 2) (y + 2) (x + 2 + (23 - 4)) (y + 2 + (13 - 4)) px py = true) →
        (serviceStep mask q y (c, x) (svc, label)).1.pix px py = true) ∧
      (inBoundsB c px py = true → mask label (px - (x + 3)) (py - (y + 1)) = true →
        (serviceStep mask q y (c, x) (svc, label)).1.pix px py = true) ∧
      (inClosedRectB x y (x + 23) (y + 13) px py = false →
        mask label (px - (x + 3)) (py - (y + 1)) = false →
        (serviceStep mask q y (c, x) (svc, label)).1.pix px py = c.pix px py)) := by
  refine ⟨?_, fun h2 h1 => ?_, fun h2 h1 px py => ⟨fun hb hbo => ?_, fun hb hm => ?_,
    fun hR hm => ?_⟩, fun h2 px py => ⟨fun hb hbo => ?_, fun hb hm => ?_, fun hR hm => ?_⟩⟩
  · show x + (23 + 2) = x + 25
    norm_num
  · show (if get_service_status q svc = "FAILED" then _
      else if get_service_status q svc = "in-active" then _ else _) = c
    rw [get_service_status_active q svc h2 h1,
      if_neg (show ¬("active" : String) = "FAILED" by decide),
      if_neg (show ¬("active" : String) = "in-active" by decide)]
  · rw [serviceStep_fst_inactive mask q c x y svc label h2 h1]
    exact draw_text_pix_of_true _ _ _ _ _ _ _
      (drawRect_outline_border_pix c x y (x + 23) (y + 13) false px py hb hbo)
  · rw [serviceStep_fst_inactive mask q c x y svc label h2 h1]
    exact draw_text_pix_mask _ _ _ _ _ _ _ hb hm
  · rw [serviceStep_fst_inactive mask q c x y svc label h2 h1,
      draw_text_pix_unchanged _ _ _ _ _ _ _ _ hm]
    exact drawRectCorners_pix_outside _ _ _ _ _ _ _ true false hR
  · rw [serviceStep_fst_failed mask q c x y svc label h2]
    cases hbo with
    | inl houter =>
      refine draw_text_pix_of_true _ _ _ _ _ _ _ ?_
      rw [show (draw_rectangle (draw_rectangle c x y 23 13 true false)
          (x + 2) (y + 2) (23 - 4) (13 - 4) true false).pix px py =
          (draw_rectangle c x y 23 13 true false).pix px py from
        drawRectCorners_pix_outside _ _ _ _ _ _ _ true false
          (outer_border_outside_inner x y px py houter)]
      exact drawRect_outline_border_pix c x y (x + 23) (y + 13) false px py hb houter
    | inr hinner =>
      refine draw_text_pix_of_true _ _ _ _ _ _ _ ?_
      exact drawRect_outline_border_pix _ (x + 2) (y + 2) (x + 2 + (23 - 4))
        (y + 2 + (13 - 4)) false px py hb hinner
  · rw [serviceStep_fst_failed mask q c x y svc label h2]
    exact draw_text_pix_mask _ _ _ _ _ _ _ hb hm
  · rw [serviceStep_fst_failed mask q c x y svc label h2,
      draw_text_pix_unchanged _ _ _ _ _ _ _ _ hm,
      show (draw_rectangle (draw_rectangle c x y 23 13 true false)
          (x + 2) (y + 2) (23 - 4) (13 - 4) true false).pix px py =
          (draw_rectangle c x y 23 13 true false).pix px py from
        drawRectCorners_pix_outside _ _ _ _ _ _ _ true false
          (outside_outer_outside_inner x y px py hR)]
    exact drawRectCorners_pix_outside _ _ _ _ _ _ _ true false hR

/-- Claim C10: when both status checks succeed (`is-active` and
`is-failed` both return exit status 0), the `is_failed` branch wins: the
step produces exactly the Failed marking — the double-outline composite
with the label — and in particular every in-bounds pixel of the inner
border (which the Inactive marking never touches) is foreground, and the
canvas is not left untouched as in the Active case. -/
theorem failed_takes_precedence_over_active (mask : String → Int → Int → Bool)
    (q : String → Bool × Bool) (c : Canvas) (x y : Int) (svc label : String)
    (_hA : (q svc).1 = true) (hF : (q svc).2 = true) :
    ((serviceStep mask q y (c, x) (svc, label)).1 =
      draw_text mask
        (draw_rectangle (draw_rectangle c x y 23 13 true false)
          (x + 2) (y + 2) (23 - 4) (13 - 4) true false)
        (x + 3) (y + 1) label true) ∧
    (∀ px py : Int, inBoundsB c px py = true →
      onRectBorderB (x + 2) (y + 2) (x + 2 + (23 - 4)) (y + 2 + (13 - 4)) px py = true →
      (serviceStep mask q y (c, x) (svc, label)).1.pix px py = true) := by
  refine ⟨serviceStep_fst_failed mask q c x y svc label hF, fun px py hb hinner => ?_⟩
  rw [serviceStep_fst_failed mask q c x y svc label hF]
  exact draw_text_pix_of_true _ _ _ _ _ _ _
    (drawRect_outline_border_pix _ (x + 2) (y + 2) (x + 2 + (23 - 4))
      (y + 2 + (13 - 4)) false px py hb hinner)

/-- Witness for the C3 theorem on a cleared 128×64 canvas with badges
anchored at `(2, 20)`: the cursor advances to 27; an active service leaves
the canvas untouched; an inactive service makes the border pixel
`(2, 20)` foreground; a failed service leaves the far-away pixel
`(100, 1)` untouched. -/
theorem draw_service_status_cases_witness :
    ((serviceStep witnessMask queryActive 20 (get_clean_canvas 128 64, 2)
        ("nginx.service", "NGX")).2 = 2 + 25) ∧
    ((serviceStep witnessMask queryActive 20 (get_clean_canvas 128 64, 2)
        ("nginx.service", "NGX")).1 = get_clean_canvas 128 64) ∧
    ((serviceStep witnessMask queryInactive 20 (get_clean_canvas 128 64, 2)
        ("nginx.service", "NGX")).1.pix 2 20 = true) ∧
    ((serviceStep witnessMask queryFailed 20 (get_clean_canvas 128 64, 2)
        ("nginx.service", "NGX")).1.pix 100 1 = (get_clean_canvas 128 64).pix 100 1) := by
  refine ⟨?_, ?_, ?_, ?_⟩
  · exact (draw_service_status_cases witnessMask queryActive (get_clean_canvas 128 64)
      2 20 "nginx.service" "NGX").1
  · exact (draw_service_status_cases witnessMask queryActive (get_clean_canvas 128 64)
      2 20 "nginx.service" "NGX").2.1 rfl rfl
  · exact ((draw_service_status_cases witnessMask queryInactive (get_clean_canvas 128 64)
      2 20 "nginx.service" "NGX").2.2.1 rfl rfl 2 20).1 (by decide) (by decide)
  · exact ((draw_service_status_cases witnessMask queryFailed (get_clean_canvas 128 64)
      2 20 "nginx.service" "NGX").2.2.2 rfl 100 1).2.2 (by decide) (by decide)

/-- Witness for the C10 theorem: with both checks succeeding, the step on
a cleared 128×64 canvas draws the Failed marking, and the inner-border
pixel `(4, 22)` is foreground. -/
theorem failed_precedence_witness :
    ((serviceStep witnessMask queryBoth 20 (get_clean_canvas 128 64, 2)
        ("nginx.service", "NGX")).1 =
      draw_text witnessMask
        (draw_rectangle (draw_rectangle (get_clean_canvas 128 64) 2 20 23 13 true false)
          (2 + 2) (20 + 2) (23 - 4) (13 - 4) true false)
        (2 + 3) (20 + 1) "NGX" true) ∧
    ((serviceStep witnessMask queryBoth 20 (get_clean_canvas 128 64, 2)
        ("nginx.service", "NGX")).1.pix 4 22 = true) := by
  refine ⟨?_, ?_⟩
  · exact (failed_takes_precedence_over_active witnessMask queryBoth (get_clean_canvas 128 64)
      2 20 "nginx.service" "NGX" rfl rfl).1
  · exact (failed_takes_precedence_over_active witnessMask queryBoth (get_clean_canvas 128 64)
      2 20 "nginx.service" "NGX" rfl rfl).2 4 22 (by decide) (by decide)

/-- Witness for the C6 theorem at a concrete input: two sampled loads,
bar geometry `125 × 3` with padding 1 (the demo configuration), drawn
horizontally from `(2, 40)` on a cleared 128×64 canvas. -/
theorem cpu_bars_percore_layout_witness :
    (0 : Int) ≤ 3 ∧ (0 : Int) ≤ 125 ∧ (0 : Int) ≤ 1 ∧
    draw_cpu_bars (get_clean_canvas 128 64) 2 40 125 3 1 true true 0 [50, 100] =
      Except.ok (drawBarsH 125 3 (3 + 1 + 1) 2 40 0 [50, 100] (get_clean_canvas 128 64), 2,
        40 + (([(50 : Rat), 100].length : Nat) : Int) * (3 + 1 + 1)) := by
  refine ⟨by decide, by decide, by decide, ?_⟩
  exact (cpu_bars_percore_layout (get_clean_canvas 128 64) 2 40 125 3 1 [50, 100]
    (by decide) (by decide) (by decide)).1

theorem runOp_displayWidth (mask : String → Int → Int → Bool) (q : String → Bool × Bool)
    (s : ControllerState) (op : ControllerOp) :
    (runOp mask q s op).1.displayWidth = s.displayWidth := by
  cases op <;> rfl

theorem runOp_displayHeight (mask : String → Int → Int → Bool) (q : String → Bool × Bool)
    (s : ControllerState) (op : ControllerOp) :
    (runOp mask q s op).1.displayHeight = s.displayHeight := by
  cases op <;> rfl

theorem runOps_displayWidth (mask : String → Int → Int → Bool) (q : String → Bool × Bool)
    (ops : List ControllerOp) : ∀ s : ControllerState,
    (runOps mask q s ops).displayWidth = s.displayWidth := by
  induction ops with
  | nil => intro s; rfl
  | cons op rest ih =>
    intro s
    show (runOps mask q (runOp mask q s op).1 rest).displayWidth = _
    rw [ih, runOp_displayWidth]

theorem runOps_displayHeight (mask : String → Int → Int → Bool) (q : String → Bool × Bool)
    (ops : List ControllerOp) : ∀ s : ControllerState,
    (runOps mask q s ops).displayHeight = s.displayHeight := by
  induction ops with
  | nil => intro s; rfl
  | cons op rest ih =>
    intro s
    show (runOps mask q (runOp mask q s op).1 rest).displayHeight = _
    rw [ih, runOp_displayHeight]

/-- Claim C2: `clear_canvas` always yields an all-background buffer whose
dimensions are the construction-time display geometry; clearing is
idempotent (clearing the already-cleared state again, with either `render`
flag, gives the same state); and clearing after an arbitrary sequence of
controller operations — mid-lifecycle, after any draws — gives exactly the
same state as clearing the original state. -/
theorem clear_canvas_all_background_idempotent (mask : String → Int → Int → Bool)
    (q : String → Bool × Bool) (s : ControllerState) (r r' : Bool)
    (ops : List ControllerOp) :
    ((clear_canvas s r).1.image.width = s.displayWidth) ∧
    ((clear_canvas s r).1.image.height = s.displayHeight) ∧
    (∀ px py : Int, (clear_canvas s r).1.image.pix px py = false) ∧
    ((clear_canvas (clear_canvas s r).1 r').1 = (clear_canvas s r).1) ∧
    ((clear_canvas (runOps mask q s ops) r).1 = (clear_canvas s r).1) := by
  refine ⟨rfl, rfl, fun px py => rfl, rfl, ?_⟩
  show ControllerState.mk (runOps mask q s ops).displayWidth
      (runOps mask q s ops).displayHeight
      (get_clean_canvas (runOps mask q s ops).displayWidth
        (runOps mask q s ops).displayHeight) = _
  rw [runOps_displayWidth, runOps_displayHeight]
  rfl

/-- Claim C9 counterexample.  The in-cycle canvas clear
(`clear_canvas(render=False)`) does not touch only the in-memory canvas:
it unconditionally calls `self._display.clear()` on the device handle, so
its device-call trace is nonempty. -/
theorem clear_canvas_emits_device_clear_call :
    (clear_canvas (ControllerState.mk 128 64 (get_clean_canvas 128 64)) false).2 ≠ [] := by
  decide

/-- Claim C9 (amended): the in-cycle clear makes exactly one device call,
the driver-buffer `clear()`, and never calls `display()` — no frame is
committed to the physical panel; across all controller operations,
`display()` (the device I/O) is called exactly by `render_canvas` and by
the exit-time `clear_canvas(render=True)`, and the drawing operations make
no device calls at all. -/
theorem device_display_only_from_render_or_exit_clear (mask : String → Int → Int → Bool)
    (q : String → Bool × Bool) (s : ControllerState) (op : ControllerOp) :
    ((clear_canvas s false).2 = [DevCall.devClear]) ∧
    (DevCall.devDisplay ∉ (clear_canvas s false).2) ∧
    ((render_canvas s).2 = [DevCall.devImage, DevCall.devDisplay]) ∧
    (DevCall.devDisplay ∈ (runOp mask q s op).2 ↔
      op = ControllerOp.renderCanvasOp ∨ op = ControllerOp.clearCanvasOp true) := by
  refine ⟨rfl, by simp [clear_canvas], rfl, ?_⟩
  cases op with
  | clearCanvasOp r => cases r <;> simp [runOp, clear_canvas]
  | renderCanvasOp => simp [runOp, render_canvas]
  | drawRectangleOp x y w h o f => simp [runOp]
  | drawTextOp x y t f => simp [runOp]
  | drawUptimeOp x y m => simp [runOp]
  | drawCpuBarsOp x y bw bh pad hz loads => simp [runOp]
  | drawServiceStatusOp x y svcs => simp [runOp]

/-- Claim C8 counterexample.  When the device clear raises, the handler
does not exit with status 0: the exception escapes the handler, so the
process does not terminate successfully. -/
theorem signal_handler_failure_not_exit_zero :
    signal_handler (Except.error "device clear failed") ≠ ProcessOutcome.exited 0 := by
  decide

/-- Claim C8 (amended): on a cancellation signal the handler performs the
device clear with `render=True` (which does commit to the panel) and, when
that clear succeeds, exits with status 0; but when the device clear
raises, the exception propagates and the success exit is never reached —
the process does not exit 0 in that case. -/
theorem signal_handler_success_exit_propagates_failure (s : ControllerState) :
    (signal_handler (Except.ok ()) = ProcessOutcome.exited 0) ∧
    (DevCall.devDisplay ∈ (clear_canvas s true).2) ∧
    (∀ e : String, signal_handler (Except.error e) = ProcessOutcome.raised e) := by
  refine ⟨rfl, by simp [clear_canvas], fun e => rfl⟩
